import Mathlib

/-!
Shallow embedding of the volatility-arbitrage core of the
crypto-options-trading repository, together with theorems settling the
frozen claims about its specification.

Sources embedded:
- `config.py`: the numeric configuration constants.
- `volatility_analyzer.py`: `calculate_historical_volatility`,
  `calculate_weighted_historical_volatility`,
  `find_volatility_arbitrage_opportunities`.
- `options_trader.py`: `create_vertical_spread`, the spread-selection
  fragment of `execute_volatility_arbitrage_strategy`, and the
  per-position body of `manage_positions`.

Modelling conventions: Python floats carrying market data (prices,
strikes, ratios, P&L) are modelled as rationals wherever the code only
does field arithmetic and comparisons; the historical-volatility
estimator, which calls `np.log` and `sqrt`, is modelled over the reals.
Network calls (`self.client...`) are oracles packaged in explicit
environment records; a `none` result models both a transport error and
a falsy (`None`/empty) payload, exactly the cases the source collapses
with its `if not result` tests.
-/

set_option maxRecDepth 4000

namespace CryptoOptions

/-! ### Configuration constants (config.py) -/

def CAPITAL_TOTAL : ℚ := 300

def CAPITAL_ACTIF : ℚ := CAPITAL_TOTAL * (1/2)

def MAX_POSITION_SIZE : ℚ := CAPITAL_ACTIF * (1/10)

def MAX_POSITIONS : Nat := 5

def IV_HV_HIGH_THRESHOLD : ℚ := 13/10

def IV_HV_LOW_THRESHOLD : ℚ := 7/10

def HV_WINDOW_SHORT : Nat := 7

def HV_WINDOW_MEDIUM : Nat := 14

def HV_WINDOW_LONG : Nat := 30

/-- Weights `HV_WEIGHTS = [0.5, 0.3, 0.2]` for the blended volatility. -/
def HV_WEIGHTS : List ℝ := [0.5, 0.3, 0.2]

def PROFIT_TARGET_PCT : ℚ := 1/2

def STOP_LOSS_PCT : ℚ := 1/2

def MIN_DAYS_TO_EXPIRY : Int := 7

def MAX_DAYS_TO_EXPIRY : Int := 21

def STRIKE_SPREAD_PCT : ℚ := 1/20

def BTC_CONTRACT_SIZE : ℚ := 1/100

def ETH_CONTRACT_SIZE : ℚ := 1/10

/-! ### Historical volatility estimator (volatility_analyzer.py, lines 58-123)

`np.log(prices / prices.shift(1)).dropna()`: the log-return series,
one entry per consecutive pair of prices. -/

noncomputable def logReturns (prices : List ℝ) : List ℝ :=
  List.zipWith (fun a b => Real.log (b / a)) prices prices.tail

/-- Arithmetic mean of a list, `xs.sum / len(xs)`. -/
noncomputable def listMean (xs : List ℝ) : ℝ := xs.sum / xs.length

/-- Sample standard deviation with the `ddof=1` normalisation used by
pandas `.std()`: `sqrt(sum((x - mean)^2) / (n - 1))`. -/
noncomputable def sampleStd (xs : List ℝ) : ℝ :=
  Real.sqrt ((xs.map (fun x => (x - listMean xs)^2)).sum / ((xs.length : ℝ) - 1))

/-- Function `calculate_historical_volatility(prices, window)`: `None` when fewer
than `window + 1` prices are available; otherwise the rolling sample
standard deviation of the last `window` log-returns, annualised by
`sqrt(365)` (`hist_vol.iloc[-1]`).  The source also returns `None` when
the rolling series is empty, which under the length guard can only
happen for `window = 0`; the check is kept. -/
noncomputable def calculate_historical_volatility
    (prices : List ℝ) (window : Nat) : Option ℝ :=
  if prices.length < window + 1 then none
  else
    let returns := logReturns prices
    if returns.isEmpty then none
    else some (sampleStd (returns.drop (returns.length - window)) * Real.sqrt 365)

/-- Python `x or default` applied to an optional float: the fallback is
substituted when `x` is `None` *or* falsy, i.e. exactly `0.0`. -/
noncomputable def pyOrFloat (x : Option ℝ) (d : ℝ) : ℝ :=
  match x with
  | none => d
  | some v => if v = 0 then d else v

/-- Function `calculate_weighted_historical_volatility`.  The argument is the
outcome of the `get_historical_data` fetch: `none` models every case in
which no close-price series is obtained (transport error, falsy result
dict, missing `"close"` key — the cases collapsed by the source's
`if not hist_data or "close" not in hist_data` guard); `some prices`
is the fetched close-price series.  When at least one window is `None`
the source replaces each window with `window_value or fallback`
(fallbacks 0.8 / 0.7 / 0.6); otherwise the three computed values are
blended directly with `HV_WEIGHTS`. -/
noncomputable def calculate_weighted_historical_volatility
    (fetched : Option (List ℝ)) : Option ℝ :=
  match fetched with
  | none => none
  | some prices =>
    let hv_short := calculate_historical_volatility prices HV_WINDOW_SHORT
    let hv_medium := calculate_historical_volatility prices HV_WINDOW_MEDIUM
    let hv_long := calculate_historical_volatility prices HV_WINDOW_LONG
    match hv_short, hv_medium, hv_long with
    | some s, some m, some l =>
      some (s * HV_WEIGHTS.getD 0 0 + m * HV_WEIGHTS.getD 1 0 + l * HV_WEIGHTS.getD 2 0)
    | _, _, _ =>
      some (pyOrFloat hv_short 0.8 * HV_WEIGHTS.getD 0 0 +
            pyOrFloat hv_medium 0.7 * HV_WEIGHTS.getD 1 0 +
            pyOrFloat hv_long 0.6 * HV_WEIGHTS.getD 2 0)

/-! ### Opportunity scanner (volatility_analyzer.py, lines 182-259)

Market-data floats are modelled as rationals here: the scanner only
divides, compares and sorts them. -/

/-- One entry of the `public/get_instruments` listing, as consumed by
`find_volatility_arbitrage_opportunities`. -/
structure OptionInfo where
  instrument_name : String
  /-- `expiration_timestamp`, milliseconds since the epoch. -/
  expiration_timestamp : ℚ
  strike : ℚ
  option_type : String
deriving DecidableEq

/-- One opportunity dict produced by the scanner.  `ivOverHv` is the
source's `"iv_hv_ratio"` key (renamed only in the Lean identifier). -/
structure Opportunity where
  type : String
  instrument : String
  iv : ℚ
  hv : ℚ
  ivOverHv : ℚ
  days_to_expiry : Int
  strike : ℚ
  option_type : String
deriving DecidableEq

/-- Environment of the scanner: `hv` is the outcome of
`calculate_weighted_historical_volatility` (a float or `None`),
`options` the `get_available_options` listing, `iv` the per-instrument
`get_option_volatility` oracle, and `nowSec` the epoch seconds of
`datetime.now()`. -/
structure ScanEnv where
  hv : Option ℚ
  options : List OptionInfo
  iv : String → Option ℚ
  nowSec : ℚ

/-- Value of `(datetime.fromtimestamp(ts / 1000) - datetime.now()).days`:
`timedelta.days` floors the difference measured in days. -/
def daysToExpiryOf (nowSec : ℚ) (tsMs : ℚ) : Int :=
  Int.floor ((tsMs / 1000 - nowSec) / 86400)

/-- The ratio classification of lines 220-245: strictly above the high
threshold is a sell, strictly below the low threshold a buy, anything
else (both boundaries included) is discarded. -/
def classifyIvHv (r : ℚ) : Option String :=
  if r > IV_HV_HIGH_THRESHOLD then some "sell"
  else if r < IV_HV_LOW_THRESHOLD then some "buy"
  else none

/-- The body of the scan loop for a single option: eligibility window on
days-to-expiry, implied-volatility fetch, ratio classification, and the
opportunity dict of lines 222-231 / 234-244. -/
def scanOption (env : ScanEnv) (hv : ℚ) (opt : OptionInfo) : Option Opportunity :=
  let days := daysToExpiryOf env.nowSec opt.expiration_timestamp
  if MIN_DAYS_TO_EXPIRY ≤ days ∧ days ≤ MAX_DAYS_TO_EXPIRY then
    match env.iv opt.instrument_name with
    | none => none
    | some iv =>
      let r := iv / hv
      match classifyIvHv r with
      | some dir =>
        some ⟨dir, opt.instrument_name, iv, hv, r, days, opt.strike, opt.option_type⟩
      | none => none
  else none

/-- Comparison used for the sell block: `sorted(key=ratio, reverse=True)`
keeps larger ratios first. -/
def byRatioDesc (a b : Opportunity) : Prop := Opportunity.ivOverHv b ≤ Opportunity.ivOverHv a

/-- Comparison used for the buy block: `sorted(key=ratio)` ascending. -/
def byRatioAsc (a b : Opportunity) : Prop := Opportunity.ivOverHv a ≤ Opportunity.ivOverHv b

instance : DecidableRel byRatioDesc := fun a b =>
  inferInstanceAs (Decidable (Opportunity.ivOverHv b ≤ Opportunity.ivOverHv a))

instance : DecidableRel byRatioAsc := fun a b =>
  inferInstanceAs (Decidable (Opportunity.ivOverHv a ≤ Opportunity.ivOverHv b))

instance : IsTotal Opportunity byRatioDesc :=
  ⟨fun a b => le_total (Opportunity.ivOverHv b) (Opportunity.ivOverHv a)⟩

instance : IsTrans Opportunity byRatioDesc :=
  ⟨fun _ _ _ h1 h2 => le_trans h2 h1⟩

instance : IsTotal Opportunity byRatioAsc :=
  ⟨fun a b => le_total (Opportunity.ivOverHv a) (Opportunity.ivOverHv b)⟩

instance : IsTrans Opportunity byRatioAsc :=
  ⟨fun _ _ _ h1 h2 => le_trans h1 h2⟩

/-- Function `find_volatility_arbitrage_opportunities`: empty when the blended
historical volatility is unavailable, otherwise the per-option loop
followed by the two stable sorts and the sell-then-buy concatenation of
lines 247-259.  Python's `sorted` is a stable sort; `List.insertionSort`
with the corresponding non-strict comparison computes the same list. -/
def find_volatility_arbitrage_opportunities (env : ScanEnv) : List Opportunity :=
  match env.hv with
  | none => []
  | some hv =>
    let opportunities := env.options.filterMap (scanOption env hv)
    let sell_opportunities :=
      List.insertionSort byRatioDesc (opportunities.filter (fun o => o.type == "sell"))
    let buy_opportunities :=
      List.insertionSort byRatioAsc (opportunities.filter (fun o => o.type == "buy"))
    sell_opportunities ++ buy_opportunities

/-! ### Spread construction (options_trader.py, lines 102-248) -/

/-- Value of a Python decimal digit character. -/
def digitsToNat (cs : List Char) : Nat :=
  cs.foldl (fun acc c => acc * 10 + (c.toNat - 48)) 0

/-- Models `float(s)` for the plain decimal literals that appear in
instrument identifiers: optional sign, integer digits, optional
fractional digits.  `none` models the `ValueError` raised on any other
input (exponent forms never occur in instrument ids). -/
def parseFloatStr (s : String) : Option ℚ :=
  let cs := s.toList
  let signed : ℚ × List Char :=
    match cs with
    | '-' :: rest => (-1, rest)
    | '+' :: rest => (1, rest)
    | _ => (1, cs)
  let intPart := signed.2.takeWhile Char.isDigit
  let rest := signed.2.dropWhile Char.isDigit
  match rest with
  | [] => if intPart.isEmpty then none else some (signed.1 * digitsToNat intPart)
  | '.' :: frac =>
    let fracPart := frac.takeWhile Char.isDigit
    let rest2 := frac.dropWhile Char.isDigit
    if rest2.isEmpty && !(intPart.isEmpty && fracPart.isEmpty) then
      some (signed.1 * ((digitsToNat intPart : ℚ) +
        (digitsToNat fracPart : ℚ) / (10 ^ fracPart.length)))
    else none
  | _ => none

/-- Models `str`/f-string interpolation of a Python float strike: a
float with integral value prints with a trailing `".0"`
(`f"{25000.0}" = "25000.0"`).  Non-integral strikes are printed by
Python as their shortest decimal form; that case is not exercised by
any theorem below and is rendered as the rational's own string. -/
def pyFloatStr (q : ℚ) : String :=
  if q.den = 1 then toString q.num ++ ".0" else toString q

/-- The f-string `f"{currency}-{expiry}-{strike}-{C|P}"` of lines
181-194, with the strike a Python float. -/
def mkOptionName (currency expiry : String) (strike : ℚ) (kind : String) : String :=
  currency ++ "-" ++ expiry ++ "-" ++ pyFloatStr strike ++ "-" ++ kind

/-- Leg selection of `create_vertical_spread` (lines 179-197): for each
spread type, which instrument is bought and which is sold.  Returns
`(buy_option, sell_option)`; `none` models the `return None` on an
unrecognised spread type. -/
def spreadLegs (spread_type currency expiry : String) (strike1 strike2 : ℚ) :
    Option (String × String) :=
  if spread_type == "bull_call" then
    some (mkOptionName currency expiry strike1 "C", mkOptionName currency expiry strike2 "C")
  else if spread_type == "bear_call" then
    some (mkOptionName currency expiry strike2 "C", mkOptionName currency expiry strike1 "C")
  else if spread_type == "bull_put" then
    some (mkOptionName currency expiry strike1 "P", mkOptionName currency expiry strike2 "P")
  else if spread_type == "bear_put" then
    some (mkOptionName currency expiry strike2 "P", mkOptionName currency expiry strike1 "P")
  else none

/-- Top-of-book as used by `create_vertical_spread`: price/size levels.
A missing `"asks"`/`"bids"` key and an empty level list are the same
falsy condition in the source and are both modelled by `[]`. -/
structure Book where
  asks : List (ℚ × ℚ)
  bids : List (ℚ × ℚ)
deriving DecidableEq

/-- Parameters assembled by `place_order` before the `private/buy` or
`private/sell` request. -/
structure OrderParams where
  instrument_name : String
  amount : ℚ
  type : String
  price : Option ℚ
  label : Option String
deriving DecidableEq

/-- The order dict returned by the exchange; the source only ever reads
`order_id` from it, via `.get` (so the key may be absent). -/
structure OrderResult where
  order_id : Option String
deriving DecidableEq

/-- Environment of the trader: the gateway oracles.  `getBook` is
`get_order_book` (with error and falsy payloads collapsed to `none`,
as by the source's `if not buy_book` test), `post` is
`client.post_private` for order placement (`none` models an error
result or a falsy order payload), `postCancel` is the
`private/cancel` request of `cancel_order`, and `nowIso` the
`datetime.now().isoformat()` timestamp. -/
structure TraderEnv where
  getBook : String → Option Book
  post : String → OrderParams → Option OrderResult
  postCancel : Option String → Option OrderResult
  nowIso : String
  now : Int

/-- The request `place_order(instrument, amount, type, price, label)`
assembles: `private/buy` for positive amounts and `private/sell`
otherwise, the absolute amount, and `price`/`label` included only when
truthy. -/
def orderRequest (instrument_name : String) (amount : ℚ)
    (type : String) (price : Option ℚ) (label : Option String) : String × OrderParams :=
  let method := if amount > 0 then "private/buy" else "private/sell"
  let params : OrderParams :=
    { instrument_name := instrument_name
      amount := |amount|
      type := type
      price := match price with
               | some p => if p = 0 then none else some p
               | none => none
      label := match label with
               | some l => if l.isEmpty then none else some l
               | none => none }
  (method, params)

/-- Function `place_order(instrument, amount, type, price, label)`. -/
def place_order (env : TraderEnv) (instrument_name : String) (amount : ℚ)
    (type : String) (price : Option ℚ) (label : Option String) : Option OrderResult :=
  let req := orderRequest instrument_name amount type price label
  env.post req.1 req.2

/-- Function `cancel_order(order_id)`. -/
def cancel_order (env : TraderEnv) (order_id : Option String) : Option OrderResult :=
  env.postCancel order_id

/-- The spread dict returned on success (lines 236-245). -/
structure SpreadResult where
  spread_type : String
  buy_option : String
  sell_option : String
  buy_order : OrderResult
  sell_order : OrderResult
  net_cost : ℚ
  amount : ℚ
  timestamp : String
deriving DecidableEq

/-- Function `create_vertical_spread(currency, spread_type, strike1, strike2,
expiry, amount)` (lines 164-248).  Every rejection path of the source
— unknown spread type, missing order book, empty ask/bid side,
over-budget net cost, failed buy leg, failed sell leg (after a
best-effort cancel of the buy leg whose outcome is discarded) —
returns `none`, exactly as the source returns `None`. -/
def create_vertical_spread (env : TraderEnv) (currency spread_type : String)
    (strike1 strike2 : ℚ) (expiry : String) (amount : ℚ) : Option SpreadResult :=
  match spreadLegs spread_type currency expiry strike1 strike2 with
  | none => none
  | some (buy_option, sell_option) =>
    match env.getBook buy_option, env.getBook sell_option with
    | some buy_book, some sell_book =>
      match buy_book.asks, sell_book.bids with
      | ask0 :: _, bid0 :: _ =>
        let buy_price := ask0.1
        let sell_price := bid0.1
        let net_cost := (buy_price - sell_price) * amount
        if |net_cost| > MAX_POSITION_SIZE then none
        else
          match place_order env buy_option amount "limit" (some buy_price)
              (some ("spread_" ++ spread_type ++ "_buy")) with
          | none => none
          | some buy_order =>
            match place_order env sell_option (-amount) "limit" (some sell_price)
                (some ("spread_" ++ spread_type ++ "_sell")) with
            | some sell_order =>
              some { spread_type := spread_type
                     buy_option := buy_option
                     sell_option := sell_option
                     buy_order := buy_order
                     sell_order := sell_order
                     net_cost := net_cost
                     amount := amount
                     timestamp := env.nowIso }
            | none =>
              -- the cancel result is discarded by the source
              let _ := cancel_order env buy_order.order_id
              none
      | _, _ => none
    | _, _ => none

/-- The `create_vertical_spread` invocation assembled by
`execute_volatility_arbitrage_strategy`. -/
structure SpreadCall where
  currency : String
  spread_type : String
  strike1 : ℚ
  strike2 : ℚ
  expiry : String
  amount : ℚ
deriving DecidableEq

/-- Spread selection of `execute_volatility_arbitrage_strategy`
(lines 283-316): split the opportunity's instrument id, read the strike
back with `float(...)`, offset by `strike * STRIKE_SPREAD_PCT`, and
pick the spread type and strike pair from the opportunity direction and
option kind.  `none` models the uncaught `IndexError`/`ValueError` the
source would raise on a malformed id. -/
def chooseSpread (opp : Opportunity) (contract_size : ℚ) : Option SpreadCall :=
  let parts := opp.instrument.splitOn "-"
  if parts.length < 4 then none
  else
    match parseFloatStr (parts.getD 2 "") with
    | none => none
    | some strike =>
      let currency := parts.getD 0 ""
      let expiry := parts.getD 1 ""
      let option_type := parts.getD 3 ""
      let strike_diff := strike * STRIKE_SPREAD_PCT
      if opp.type == "sell" then
        if option_type == "C" then
          some ⟨currency, "bear_call", strike, strike + strike_diff, expiry, contract_size⟩
        else
          some ⟨currency, "bear_put", strike - strike_diff, strike, expiry, contract_size⟩
      else
        if option_type == "C" then
          some ⟨currency, "bull_call", strike, strike + strike_diff, expiry, contract_size⟩
        else
          some ⟨currency, "bull_put", strike - strike_diff, strike, expiry, contract_size⟩

/-! ### Position lifecycle (options_trader.py, lines 331-404) -/

/-- One entry of the `private/get_positions` result, with each field
read via `.get` (hence optional). -/
structure Position where
  instrument_name : Option String
  average_price : Option ℚ
  mark_price : Option ℚ
  size : Option ℚ
  direction : Option String
deriving DecidableEq

/-- Python truthiness of an optional string: falsy when absent or empty. -/
def truthyOptStr : Option String → Bool
  | none => false
  | some s => !s.isEmpty

/-- Python truthiness of an optional float: falsy when absent or zero. -/
def truthyOptQ : Option ℚ → Bool
  | none => false
  | some v => v != 0

/-- The completeness test `all([instrument, entry_price, current_price,
size, direction])` of line 354. -/
def completePosition (p : Position) : Bool :=
  truthyOptStr p.instrument_name && truthyOptQ p.average_price &&
    truthyOptQ p.mark_price && truthyOptQ p.size && truthyOptStr p.direction

/-- Sign-adjusted P&L of line 359: long `(mark - entry)/entry`,
short `(entry - mark)/entry`. -/
def pnlOf (p : Position) : ℚ :=
  let entry_price := (p.average_price).getD 0
  let current_price := (p.mark_price).getD 0
  if (p.direction).getD "" == "buy" then (current_price - entry_price) / entry_price
  else (entry_price - current_price) / entry_price

/-- Month-abbreviation table of `strptime` for `%b`, matched case-insensitively. -/
def monthOfAbbrev (s : String) : Option Nat :=
  match s.toLower with
  | "jan" => some 1
  | "feb" => some 2
  | "mar" => some 3
  | "apr" => some 4
  | "may" => some 5
  | "jun" => some 6
  | "jul" => some 7
  | "aug" => some 8
  | "sep" => some 9
  | "oct" => some 10
  | "nov" => some 11
  | "dec" => some 12
  | _ => none

/-- Gregorian leap-year test. -/
def isLeap (y : Int) : Bool :=
  (y % 4 == 0 && y % 100 != 0) || y % 400 == 0

/-- Days in a month, used by the `datetime` validity check. -/
def daysInMonth (y : Int) (m : Nat) : Nat :=
  match m with
  | 1 => 31
  | 2 => if isLeap y then 29 else 28
  | 3 => 31
  | 4 => 30
  | 5 => 31
  | 6 => 30
  | 7 => 31
  | 8 => 31
  | 9 => 30
  | 10 => 31
  | 11 => 30
  | 12 => 31
  | _ => 0

/-- Parse `datetime.strptime(s, "%d%b%y")`: one or two day digits, a month
abbreviation (case-insensitive), a two-digit year (00-68 mapped to
2000-2068, 69-99 to 1969-1999), the whole string consumed, and the
resulting date valid.  `none` models the `ValueError`. -/
def parseDDMonYY (s : String) : Option (Int × Nat × Nat) :=
  let cs := s.toList
  let dayDigits := cs.takeWhile Char.isDigit
  let rest := cs.dropWhile Char.isDigit
  if dayDigits.length = 0 ∨ dayDigits.length > 2 then none
  else
    let monthChars := rest.takeWhile Char.isAlpha
    let rest2 := rest.dropWhile Char.isAlpha
    match monthOfAbbrev (String.mk monthChars) with
    | none => none
    | some m =>
      let yearDigits := rest2.takeWhile Char.isDigit
      let rest3 := rest2.dropWhile Char.isDigit
      if yearDigits.length = 2 ∧ rest3.isEmpty then
        let yy := digitsToNat yearDigits
        let year : Int := if yy ≤ 68 then 2000 + yy else 1900 + yy
        let day := digitsToNat dayDigits
        if 1 ≤ day ∧ day ≤ daysInMonth year m then some (year, m, day) else none
      else none

/-- Days from 1970-01-01 to the given civil date (Hinnant's
`days_from_civil` algorithm), the pure content of `datetime`
subtraction. -/
def daysFromCivil (y : Int) (m d : Nat) : Int :=
  let yAdj := if m ≤ 2 then y - 1 else y
  let era := Int.fdiv yAdj 400
  let yoe := yAdj - era * 400
  let mp := (m + 9) % 12
  let doy : Int := (153 * mp + 2) / 5 + (d - 1 : Nat)
  let doe := yoe * 365 + Int.fdiv yoe 4 - Int.fdiv yoe 100 + doy
  era * 146097 + doe - 719468

/-- Rule 3 of `manage_positions` (lines 373-384): split the instrument
id, parse the second part as a `DDMonYY` date, and take
`(expiry_date - datetime.now()).days` — the floored day difference
between the parsed midnight and the current time `now` (epoch
seconds).  `none` when there are fewer than two id parts or the parse
fails. -/
def days_to_expiry_of (now : Int) (instrument : String) : Option Int :=
  let expiry_parts := instrument.splitOn "-"
  if expiry_parts.length ≥ 2 then
    match parseDDMonYY (expiry_parts.getD 1 "") with
    | some (y, m, d) => some (Int.fdiv (daysFromCivil y m d * 86400 - now) 86400)
    | none => none
  else none

/-- The exit-rule evaluation of lines 361-384: profit target, else
stop loss, then — independently and with final say — close on expiry
proximity when the expiry parses and is at most 2 days away. -/
def selectAction (now : Int) (instrument : String) (pnl_pct : ℚ) : Option String :=
  let tentative :=
    if pnl_pct ≥ PROFIT_TARGET_PCT then some "take_profit"
    else if pnl_pct ≤ -STOP_LOSS_PCT then some "stop_loss"
    else none
  match days_to_expiry_of now instrument with
  | some days_to_expiry => if days_to_expiry ≤ 2 then some "close_to_expiry" else tentative
  | none => tentative

/-- The action selected for one position by the review pass: `none`
when the record is incomplete (skipped at line 354-356) or when no exit
rule fires. -/
def positionDecision (now : Int) (p : Position) : Option String :=
  if completePosition p then selectAction now ((p.instrument_name).getD "") (pnlOf p)
  else none

/-- The action-record dict appended at lines 396-401. -/
structure ActionRecord where
  instrument : String
  action : String
  pnl_pct : ℚ
  order : OrderResult
deriving DecidableEq

/-- The per-position body of the `manage_positions` loop (lines
347-402).  Returns the list of `place_order` requests issued for the
position (empty or a single market close in the opposite direction)
together with the action record appended when the close order is
accepted. -/
def reviewPosition (env : TraderEnv) (p : Position) :
    List OrderParams × Option ActionRecord :=
  match positionDecision env.now p with
  | none => ([], none)
  | some action =>
    let instrument := (p.instrument_name).getD ""
    let size := (p.size).getD 0
    let direction := (p.direction).getD ""
    let amount := if direction == "buy" then -size else size
    let req := orderRequest instrument amount "market" none (some ("close_" ++ action))
    match env.post req.1 req.2 with
    | some close_order => ([req.2], some ⟨instrument, action, pnlOf p, close_order⟩)
    | none => ([req.2], none)

/-- The option-position filter of lines 342-343. -/
def isOptionPosition (p : Position) : Bool :=
  ((p.instrument_name).getD "").endsWith "-C" || ((p.instrument_name).getD "").endsWith "-P"

/-- Function `manage_positions`: review every option position and collect the
successful close actions, in order. -/
def manage_positions (env : TraderEnv) (positions : List Position) : List ActionRecord :=
  (positions.filter isOptionPosition).filterMap (fun p => (reviewPosition env p).2)

/-! ### Theorems settling the claims -/

/-- Claim C6: the ratio classification is a total, mutually exclusive
partition — a ratio strictly above `IV_HV_HIGH_THRESHOLD` classifies as
sell, strictly below `IV_HV_LOW_THRESHOLD` as buy, and every other
ratio, both boundary values included, is discarded (no opportunity
emitted). -/
theorem classify_ratio_partition :
    (∀ r : ℚ,
      (IV_HV_HIGH_THRESHOLD < r ↔ classifyIvHv r = some "sell")
      ∧ (r < IV_HV_LOW_THRESHOLD ↔ classifyIvHv r = some "buy")
      ∧ ((IV_HV_LOW_THRESHOLD ≤ r ∧ r ≤ IV_HV_HIGH_THRESHOLD) ↔ classifyIvHv r = none))
    ∧ classifyIvHv IV_HV_HIGH_THRESHOLD = none
    ∧ classifyIvHv IV_HV_LOW_THRESHOLD = none := by
  have hlh : IV_HV_LOW_THRESHOLD < IV_HV_HIGH_THRESHOLD := by
    norm_num [IV_HV_LOW_THRESHOLD, IV_HV_HIGH_THRESHOLD]
  refine ⟨fun r => ?_, by with_unfolding_all decide, by with_unfolding_all decide⟩
  unfold classifyIvHv
  split_ifs with h1 h2
  · exact ⟨⟨fun _ => rfl, fun _ => h1⟩,
      ⟨fun hb => absurd (lt_trans hb hlh) (not_lt.mpr (le_of_lt h1)), fun hc => by simp at hc⟩,
      ⟨fun hc => absurd hc.2 (not_le.mpr h1), fun hc => by simp at hc⟩⟩
  · exact ⟨⟨fun hs => absurd (lt_trans hlh hs) (not_lt.mpr (le_of_lt h2)), fun hc => by simp at hc⟩,
      ⟨fun _ => rfl, fun _ => h2⟩,
      ⟨fun hc => absurd hc.1 (not_le.mpr h2), fun hc => by simp at hc⟩⟩
  · exact ⟨⟨fun hs => absurd hs h1, fun hc => by simp at hc⟩,
      ⟨fun hb => absurd hb h2, fun hc => by simp at hc⟩,
      ⟨fun _ => rfl, fun _ => ⟨not_lt.mp h2, not_lt.mp h1⟩⟩⟩

/-- Claim C10: a position record in which any of instrument name, entry
price, mark price, size, or direction is absent or falsy (`None`, `0`,
`""`) is skipped by the review pass — no close order is issued and no
action is recorded. -/
theorem incomplete_position_skipped (env : TraderEnv) (p : Position)
    (h : truthyOptStr p.instrument_name = false ∨ truthyOptQ p.average_price = false ∨
         truthyOptQ p.mark_price = false ∨ truthyOptQ p.size = false ∨
         truthyOptStr p.direction = false) :
    reviewPosition env p = ([], none) := by
  have hc : completePosition p = false := by
    unfold completePosition
    rcases h with h | h | h | h | h <;> simp [h]
  unfold reviewPosition positionDecision
  rw [hc]
  simp

/-- Witness for claim C10: a fully populated position whose size is `0`
is skipped as incomplete and produces no order and no action. -/
theorem incomplete_position_skipped_witness :
    reviewPosition
      { getBook := fun _ => none
        post := fun _ _ => some ⟨some "id0"⟩
        postCancel := fun _ => some ⟨none⟩
        nowIso := "T"
        now := 0 }
      ⟨some "BTC-30JUN23-100-C", some 100, some 160, some 0, some "buy"⟩ = ([], none) :=
  incomplete_position_skipped _ _
    (Or.inr (Or.inr (Or.inr (Or.inl (by with_unfolding_all decide)))))

/-- Claim C4: an open option position whose record is complete and whose
instrument id carries a parsable `DDMonYY` expiry with days-to-expiry
at most 2 is always selected for `close_to_expiry`, whatever its
sign-adjusted P&L (the expiry rule overwrites any tentative
`take_profit`/`stop_loss` decision). -/
theorem expiry_rule_overrides (now : Int) (p : Position) (d : Int)
    (hc : completePosition p = true)
    (hd : days_to_expiry_of now ((p.instrument_name).getD "") = some d)
    (h2 : d ≤ 2) :
    positionDecision now p = some "close_to_expiry" := by
  unfold positionDecision
  rw [hc]
  simp only [if_true]
  unfold selectAction
  rw [hd]
  simp only [if_pos h2]

/-- Witness for claim C4: a complete long position entered at 100 and
marked 160 (P&L +60 percent, above the profit target) one day before its
30JUN23 expiry is nevertheless closed with reason `close_to_expiry`. -/
theorem expiry_rule_overrides_witness :
    positionDecision (daysFromCivil 2023 6 29 * 86400)
      ⟨some "BTC-30JUN23-100-C", some 100, some 160, some (1/100), some "buy"⟩ =
      some "close_to_expiry" :=
  expiry_rule_overrides (daysFromCivil 2023 6 29 * 86400) _ 1
    (by with_unfolding_all decide) (by with_unfolding_all decide)
    (by with_unfolding_all decide)

/-- A sell-classified opportunity on the put `BTC-30JUN23-100-P`, used
as concrete input for claim C1. -/
def oppSellPutW : Opportunity := ⟨"sell", "BTC-30JUN23-100-P", 1, 1, 1, 10, 100, "put"⟩

/-- Claim C1 counterexample: for a sell opportunity on the put
`BTC-30JUN23-100-P` the strategy builds a `bear_put` on strikes
`(95, 100)`, whose buy leg (first component of `spreadLegs`) is the
HIGHER-strike put — the opportunity's own strike 100 — not the
lower-strike put the claim asserts (the lower-strike name differs from
the buy leg actually chosen). -/
theorem sell_put_buy_leg_is_higher :
    chooseSpread oppSellPutW BTC_CONTRACT_SIZE =
      some ⟨"BTC", "bear_put", 95, 100, "30JUN23", BTC_CONTRACT_SIZE⟩
    ∧ spreadLegs "bear_put" "BTC" "30JUN23" 95 100 =
      some (mkOptionName "BTC" "30JUN23" 100 "P", mkOptionName "BTC" "30JUN23" 95 "P")
    ∧ mkOptionName "BTC" "30JUN23" 100 "P" ≠ mkOptionName "BTC" "30JUN23" 95 "P" := by
  with_unfolding_all decide

/-- Claim C1 amended: for every sell opportunity on a put the spread
built is a `bear_put` whose BUY leg is the higher-strike put (the
opportunity's strike) and whose SELL leg is the lower-strike put (the
strike offset downward by `strike * STRIKE_SPREAD_PCT`); for every buy
opportunity on a put the spread is a `bull_put` whose buy leg is the
lower-strike put and whose sell leg is the higher-strike put. -/
theorem put_spread_leg_selection
    (currency expiry kstr : String) (strike cs : ℚ) (opp : Opportunity)
    (hsplit : opp.instrument.splitOn "-" = [currency, expiry, kstr, "P"])
    (hparse : parseFloatStr kstr = some strike)
    (hpos : 0 < strike) :
    (opp.type = "sell" →
      chooseSpread opp cs =
        some ⟨currency, "bear_put", strike - strike * STRIKE_SPREAD_PCT, strike, expiry, cs⟩
      ∧ strike - strike * STRIKE_SPREAD_PCT < strike
      ∧ spreadLegs "bear_put" currency expiry (strike - strike * STRIKE_SPREAD_PCT) strike =
          some (mkOptionName currency expiry strike "P",
                mkOptionName currency expiry (strike - strike * STRIKE_SPREAD_PCT) "P"))
    ∧ (opp.type = "buy" →
      chooseSpread opp cs =
        some ⟨currency, "bull_put", strike - strike * STRIKE_SPREAD_PCT, strike, expiry, cs⟩
      ∧ strike - strike * STRIKE_SPREAD_PCT < strike
      ∧ spreadLegs "bull_put" currency expiry (strike - strike * STRIKE_SPREAD_PCT) strike =
          some (mkOptionName currency expiry (strike - strike * STRIKE_SPREAD_PCT) "P",
                mkOptionName currency expiry strike "P")) := by
  have hlt : strike - strike * STRIKE_SPREAD_PCT < strike := by
    have : 0 < strike * STRIKE_SPREAD_PCT := by
      apply mul_pos hpos
      norm_num [STRIKE_SPREAD_PCT]
    linarith
  constructor
  · intro htype
    refine ⟨?_, hlt, ?_⟩
    · unfold chooseSpread
      rw [hsplit, htype]
      simp [List.getD, hparse]
    · unfold spreadLegs
      simp
  · intro htype
    refine ⟨?_, hlt, ?_⟩
    · unfold chooseSpread
      rw [hsplit, htype]
      simp [List.getD, hparse]
    · unfold spreadLegs
      simp

/-- Witness for claim C1 (amended): the sell-put case evaluated on the
concrete opportunity `BTC-30JUN23-100-P`. -/
theorem put_spread_leg_selection_witness :
    chooseSpread oppSellPutW BTC_CONTRACT_SIZE =
      some ⟨"BTC", "bear_put", 100 - 100 * STRIKE_SPREAD_PCT, 100, "30JUN23", BTC_CONTRACT_SIZE⟩
    ∧ (100 : ℚ) - 100 * STRIKE_SPREAD_PCT < 100
    ∧ spreadLegs "bear_put" "BTC" "30JUN23" ((100 : ℚ) - 100 * STRIKE_SPREAD_PCT) 100 =
        some (mkOptionName "BTC" "30JUN23" 100 "P",
              mkOptionName "BTC" "30JUN23" ((100 : ℚ) - 100 * STRIKE_SPREAD_PCT) "P") :=
  (put_spread_leg_selection "BTC" "30JUN23" "100" 100 BTC_CONTRACT_SIZE oppSellPutW
    (by with_unfolding_all decide) (by with_unfolding_all decide) (by norm_num)).1 rfl

/-- Environment in which the order book is liquid, the buy-leg order is
accepted, the sell-leg order is rejected, and the compensating cancel
itself fails. -/
def envPartialW : TraderEnv :=
  { getBook := fun _ => some ⟨[(3, 1)], [(2, 1)]⟩
    post := fun method _ => if method = "private/buy" then some ⟨some "id1"⟩ else none
    postCancel := fun _ => none
    nowIso := "T"
    now := 0 }

/-- Environment in which the buy-leg order is rejected outright (full
rejection, nothing was committed). -/
def envBuyFailW : TraderEnv :=
  { getBook := fun _ => some ⟨[(3, 1)], [(2, 1)]⟩
    post := fun _ _ => none
    postCancel := fun _ => some ⟨none⟩
    nowIso := "T"
    now := 0 }

/-- Claim C2 (code bug): when the buy leg succeeds and the sell leg then
fails, `create_vertical_spread` returns `None` — byte-for-byte the same
result as a full rejection in which nothing was committed — and the
failed cancel of the buy leg (`postCancel` returns an error) is
discarded, leaving no trace of the partial execution or of the cancel
failure in the returned value. -/
theorem sell_leg_failure_swallowed :
    create_vertical_spread envPartialW "BTC" "bull_call" 100 105 "30JUN23" 1 = none
    ∧ create_vertical_spread envBuyFailW "BTC" "bull_call" 100 105 "30JUN23" 1 = none
    ∧ envPartialW.postCancel (some "id1") = none := by
  with_unfolding_all decide

/-- A sell-classified opportunity on the call `BTC-30JUN23-100-C`, used
as concrete input for claim C8. -/
def oppSellCallW : Opportunity := ⟨"sell", "BTC-30JUN23-100-C", 1, 1, 1, 10, 100, "call"⟩

/-- Claim C8 (code bug): the strategy splits `BTC-30JUN23-100-C`, reads
the strike back with `float(...)`, and recomposes the legs through
f-string interpolation of that float — producing `BTC-30JUN23-100.0-C`
for the unchanged leg: the trailing `".0"` of the float means the
original identifier is NOT reproduced character for character. -/
theorem instrument_id_roundtrip_fails :
    chooseSpread oppSellCallW BTC_CONTRACT_SIZE =
      some ⟨"BTC", "bear_call", 100, 105, "30JUN23", BTC_CONTRACT_SIZE⟩
    ∧ spreadLegs "bear_call" "BTC" "30JUN23" 100 105 =
        some ("BTC-30JUN23-105.0-C", "BTC-30JUN23-100.0-C")
    ∧ ("BTC-30JUN23-100.0-C" : String) ≠ "BTC-30JUN23-100-C" := by
  with_unfolding_all decide

/-- Claim C3: whenever `create_vertical_spread` returns a spread order
(rather than a rejection), the order's `net_cost` is the buy-leg best
ask minus the sell-leg best bid, times the amount, and its absolute
value is within `MAX_POSITION_SIZE`. -/
theorem spread_net_cost_within_budget
    (env : TraderEnv) (currency spread_type : String) (strike1 strike2 : ℚ)
    (expiry : String) (amount : ℚ) (r : SpreadResult)
    (h : create_vertical_spread env currency spread_type strike1 strike2 expiry amount
          = some r) :
    (∃ buy_book sell_book ask0 askRest bid0 bidRest,
      env.getBook r.buy_option = some buy_book
      ∧ env.getBook r.sell_option = some sell_book
      ∧ Book.asks buy_book = ask0 :: askRest
      ∧ Book.bids sell_book = bid0 :: bidRest
      ∧ r.net_cost = (ask0.1 - bid0.1) * amount)
    ∧ |r.net_cost| ≤ MAX_POSITION_SIZE := by
  unfold create_vertical_spread at h
  split at h
  · exact absurd h (by simp)
  case h_2 buy_option sell_option heqLegs =>
  split at h
  case h_2 => exact absurd h (by simp)
  case h_1 buy_book sell_book heqBB heqSB =>
  split at h
  case h_2 => exact absurd h (by simp)
  case h_1 ask0 askRest bid0 bidRest heqAsks heqBids =>
  dsimp only at h
  split at h
  · exact absurd h (by simp)
  case isFalse hbudget =>
  split at h
  · exact absurd h (by simp)
  case h_2 buy_order heqBuy =>
  split at h
  case h_2 => exact absurd h (by simp)
  case h_1 sell_order heqSell =>
  injection h with hr
  subst hr
  refine ⟨⟨buy_book, sell_book, ask0, askRest, bid0, bidRest, heqBB, heqSB,
    heqAsks, heqBids, rfl⟩, not_lt.mp hbudget⟩

/-- Witness for claim C3: a fully successful spread build in a liquid
environment; the recorded net cost `(3 - 2) * 1 = 1` is within the
budget of 15. -/
theorem spread_net_cost_within_budget_witness :
    (∃ buy_book sell_book ask0 askRest bid0 bidRest,
      TraderEnv.getBook
          { getBook := fun _ => some ⟨[((3 : ℚ), (1 : ℚ))], [((2 : ℚ), (1 : ℚ))]⟩
            post := fun _ _ => some ⟨some "id1"⟩
            postCancel := fun _ => some ⟨none⟩
            nowIso := "T"
            now := 0 }
          (SpreadResult.buy_option
            ⟨"bull_call", "BTC-30JUN23-100.0-C", "BTC-30JUN23-105.0-C",
              ⟨some "id1"⟩, ⟨some "id1"⟩, 1, 1, "T"⟩) = some buy_book
      ∧ TraderEnv.getBook
          { getBook := fun _ => some ⟨[((3 : ℚ), (1 : ℚ))], [((2 : ℚ), (1 : ℚ))]⟩
            post := fun _ _ => some ⟨some "id1"⟩
            postCancel := fun _ => some ⟨none⟩
            nowIso := "T"
            now := 0 }
          (SpreadResult.sell_option
            ⟨"bull_call", "BTC-30JUN23-100.0-C", "BTC-30JUN23-105.0-C",
              ⟨some "id1"⟩, ⟨some "id1"⟩, 1, 1, "T"⟩) = some sell_book
      ∧ Book.asks buy_book = ask0 :: askRest
      ∧ Book.bids sell_book = bid0 :: bidRest
      ∧ SpreadResult.net_cost
          ⟨"bull_call", "BTC-30JUN23-100.0-C", "BTC-30JUN23-105.0-C",
            ⟨some "id1"⟩, ⟨some "id1"⟩, 1, 1, "T"⟩ = (ask0.1 - bid0.1) * 1)
    ∧ |SpreadResult.net_cost
        ⟨"bull_call", "BTC-30JUN23-100.0-C", "BTC-30JUN23-105.0-C",
          ⟨some "id1"⟩, ⟨some "id1"⟩, 1, 1, "T"⟩| ≤ MAX_POSITION_SIZE :=
  spread_net_cost_within_budget
    { getBook := fun _ => some ⟨[((3 : ℚ), (1 : ℚ))], [((2 : ℚ), (1 : ℚ))]⟩
      post := fun _ _ => some ⟨some "id1"⟩
      postCancel := fun _ => some ⟨none⟩
      nowIso := "T"
      now := 0 }
    "BTC" "bull_call" 100 105 "30JUN23" 1 _ (by with_unfolding_all decide)

/-- Claim C5: for every input set of options the scan output is a
sell segment followed by a buy segment; ratios are non-increasing
within the sell segment (`byRatioDesc` sorted) and non-decreasing
within the buy segment (`byRatioAsc` sorted). -/
theorem scan_output_ordering (env : ScanEnv) :
    ∃ s b,
      find_volatility_arbitrage_opportunities env = s ++ b
      ∧ (∀ o ∈ s, Opportunity.type o = "sell")
      ∧ (∀ o ∈ b, Opportunity.type o = "buy")
      ∧ List.Sorted byRatioDesc s
      ∧ List.Sorted byRatioAsc b := by
  rcases henv : env.hv with _ | hv
  · refine ⟨[], [], ?_, by simp, by simp, List.sorted_nil, List.sorted_nil⟩
    unfold find_volatility_arbitrage_opportunities
    rw [henv]
    rfl
  · unfold find_volatility_arbitrage_opportunities
    rw [henv]
    dsimp only
    refine ⟨_, _, rfl, ?_, ?_,
      List.sorted_insertionSort byRatioDesc _, List.sorted_insertionSort byRatioAsc _⟩
    · intro o ho
      have hmem := (List.mem_insertionSort byRatioDesc).mp ho
      exact beq_iff_eq.mp (List.mem_filter.mp hmem).2
    · intro o ho
      have hmem := (List.mem_insertionSort byRatioAsc).mp ho
      exact beq_iff_eq.mp (List.mem_filter.mp hmem).2

/-! ### Helper lemmas for the estimator claims -/

lemma zipWith_replicate_pred (f : ℝ → ℝ → ℝ) (c : ℝ) :
    ∀ n : ℕ, List.zipWith f (List.replicate (n + 1) c) (List.replicate n c) =
      List.replicate n (f c c) := by
  intro n
  induction n with
  | zero => rfl
  | succ k ih => simpa [List.replicate_succ] using ih

lemma drop_replicate_list (a : ℝ) : ∀ k n : ℕ,
    (List.replicate n a).drop k = List.replicate (n - k) a := by
  intro k
  induction k with
  | zero => intro n; rfl
  | succ j ih =>
    intro n
    cases n with
    | zero => simp
    | succ m => simp [List.replicate_succ, ih m]

lemma logReturns_replicate (n : ℕ) (c : ℝ) (hc : c ≠ 0) :
    logReturns (List.replicate n c) = List.replicate (n - 1) 0 := by
  cases n with
  | zero => rfl
  | succ m =>
    unfold logReturns
    rw [List.tail_replicate]
    simp only [Nat.add_sub_cancel]
    rw [zipWith_replicate_pred]
    rw [div_self hc, Real.log_one]

lemma sampleStd_replicate_zero (n : ℕ) :
    sampleStd (List.replicate n (0 : ℝ)) = 0 := by
  unfold sampleStd listMean
  rw [List.sum_replicate]
  simp

lemma calculate_historical_volatility_short_input
    (prices : List ℝ) (window : ℕ) (h : prices.length < window + 1) :
    calculate_historical_volatility prices window = none := by
  unfold calculate_historical_volatility
  rw [if_pos h]

lemma calculate_historical_volatility_const
    (n window : ℕ) (c : ℝ) (hc : c ≠ 0) (hw : 1 ≤ window) (hlen : window + 1 ≤ n) :
    calculate_historical_volatility (List.replicate n c) window = some 0 := by
  unfold calculate_historical_volatility
  rw [if_neg (by simpa using not_lt.mpr hlen)]
  rw [logReturns_replicate n c hc]
  have hne : n - 1 ≠ 0 := by omega
  dsimp only
  rw [List.isEmpty_replicate]
  rw [if_neg (by simp [hne])]
  rw [List.length_replicate, drop_replicate_list]
  rw [sampleStd_replicate_zero, zero_mul]

lemma weighted_hv_fallback (prices : List ℝ)
    (h : calculate_historical_volatility prices HV_WINDOW_SHORT = none
      ∨ calculate_historical_volatility prices HV_WINDOW_MEDIUM = none
      ∨ calculate_historical_volatility prices HV_WINDOW_LONG = none) :
    calculate_weighted_historical_volatility (some prices) =
      some (pyOrFloat (calculate_historical_volatility prices HV_WINDOW_SHORT) 0.8
              * HV_WEIGHTS.getD 0 0
            + pyOrFloat (calculate_historical_volatility prices HV_WINDOW_MEDIUM) 0.7
              * HV_WEIGHTS.getD 1 0
            + pyOrFloat (calculate_historical_volatility prices HV_WINDOW_LONG) 0.6
              * HV_WEIGHTS.getD 2 0) := by
  unfold calculate_weighted_historical_volatility
  dsimp only
  split
  case h_1 s m l hS hM hL =>
    rcases h with hn | hn | hn <;> simp_all
  case h_2 => rfl

lemma weighted_hv_all_computed (prices : List ℝ) (s m l : ℝ)
    (hS : calculate_historical_volatility prices HV_WINDOW_SHORT = some s)
    (hM : calculate_historical_volatility prices HV_WINDOW_MEDIUM = some m)
    (hL : calculate_historical_volatility prices HV_WINDOW_LONG = some l) :
    calculate_weighted_historical_volatility (some prices) =
      some (s * HV_WEIGHTS.getD 0 0 + m * HV_WEIGHTS.getD 1 0 + l * HV_WEIGHTS.getD 2 0) := by
  unfold calculate_weighted_historical_volatility
  dsimp only
  rw [hS, hM, hL]

/-- Claim C7: the blended estimate is `None` exactly when no price
series is fetched; whenever a series is fetched, every window that
cannot be computed is individually replaced by its configured fallback
(0.8 / 0.7 / 0.6) and a blended number is still returned. -/
theorem hv_estimate_unavailable_iff :
    (∀ fetched : Option (List ℝ),
      calculate_weighted_historical_volatility fetched = none ↔ fetched = none)
    ∧ (∀ prices : List ℝ,
        (calculate_historical_volatility prices HV_WINDOW_SHORT = none
          ∨ calculate_historical_volatility prices HV_WINDOW_MEDIUM = none
          ∨ calculate_historical_volatility prices HV_WINDOW_LONG = none) →
        calculate_weighted_historical_volatility (some prices) =
          some (pyOrFloat (calculate_historical_volatility prices HV_WINDOW_SHORT) 0.8
                  * HV_WEIGHTS.getD 0 0
                + pyOrFloat (calculate_historical_volatility prices HV_WINDOW_MEDIUM) 0.7
                  * HV_WEIGHTS.getD 1 0
                + pyOrFloat (calculate_historical_volatility prices HV_WINDOW_LONG) 0.6
                  * HV_WEIGHTS.getD 2 0))
    ∧ (∀ d : ℝ, pyOrFloat none d = d) := by
  refine ⟨?_, weighted_hv_fallback, fun _ => rfl⟩
  intro fetched
  cases fetched with
  | none => simp [calculate_weighted_historical_volatility]
  | some prices =>
    constructor
    · intro hnone
      exfalso
      unfold calculate_weighted_historical_volatility at hnone
      dsimp only at hnone
      split at hnone <;> simp at hnone
    · intro hf
      exact absurd hf (by simp)

/-- Witness for claim C7: with no fetched series the estimate is
`None`; with a fetched series of 5 constant prices every window is too
short, each is replaced by its fallback, and the blend
`0.8*0.5 + 0.7*0.3 + 0.6*0.2` is returned. -/
theorem hv_estimate_unavailable_iff_witness :
    calculate_weighted_historical_volatility (none : Option (List ℝ)) = none
    ∧ calculate_weighted_historical_volatility (some (List.replicate 5 (1 : ℝ))) =
        some ((0.8 : ℝ) * HV_WEIGHTS.getD 0 0 + (0.7 : ℝ) * HV_WEIGHTS.getD 1 0
          + (0.6 : ℝ) * HV_WEIGHTS.getD 2 0) := by
  obtain ⟨h1, h2, h3⟩ := hv_estimate_unavailable_iff
  refine ⟨(h1 none).mpr rfl, ?_⟩
  have hS : calculate_historical_volatility (List.replicate 5 (1 : ℝ)) HV_WINDOW_SHORT = none :=
    calculate_historical_volatility_short_input _ _
      (by simp [HV_WINDOW_SHORT])
  have hM : calculate_historical_volatility (List.replicate 5 (1 : ℝ)) HV_WINDOW_MEDIUM = none :=
    calculate_historical_volatility_short_input _ _
      (by simp [HV_WINDOW_MEDIUM])
  have hL : calculate_historical_volatility (List.replicate 5 (1 : ℝ)) HV_WINDOW_LONG = none :=
    calculate_historical_volatility_short_input _ _
      (by simp [HV_WINDOW_LONG])
  rw [h2 _ (Or.inl hS), hS, hM, hL, h3, h3, h3]

/-- Claim C9: whenever at least one of the three windows cannot be
computed, the fallback branch runs and substitutes via Python `or` —
so any other window whose computed volatility is exactly `0` is also
replaced by its fallback value (`pyOrFloat (some 0) d = d`); only when
all three windows compute does a zero volatility survive into the
blend unchanged. -/
theorem hv_zero_window_fallback (prices : List ℝ) :
    ((calculate_historical_volatility prices HV_WINDOW_SHORT = none
        ∨ calculate_historical_volatility prices HV_WINDOW_MEDIUM = none
        ∨ calculate_historical_volatility prices HV_WINDOW_LONG = none) →
      calculate_weighted_historical_volatility (some prices) =
        some (pyOrFloat (calculate_historical_volatility prices HV_WINDOW_SHORT) 0.8
                * HV_WEIGHTS.getD 0 0
              + pyOrFloat (calculate_historical_volatility prices HV_WINDOW_MEDIUM) 0.7
                * HV_WEIGHTS.getD 1 0
              + pyOrFloat (calculate_historical_volatility prices HV_WINDOW_LONG) 0.6
                * HV_WEIGHTS.getD 2 0))
    ∧ (∀ d : ℝ, pyOrFloat (some 0) d = d)
    ∧ (∀ s m l : ℝ,
        calculate_historical_volatility prices HV_WINDOW_SHORT = some s →
        calculate_historical_volatility prices HV_WINDOW_MEDIUM = some m →
        calculate_historical_volatility prices HV_WINDOW_LONG = some l →
        calculate_weighted_historical_volatility (some prices) =
          some (s * HV_WEIGHTS.getD 0 0 + m * HV_WEIGHTS.getD 1 0
            + l * HV_WEIGHTS.getD 2 0)) := by
  refine ⟨weighted_hv_fallback prices, ?_, weighted_hv_all_computed prices⟩
  intro d
  simp [pyOrFloat]

/-- Witness for claim C9: 15 constant prices — the short and medium
windows compute volatility exactly `0`, the long window cannot be
computed; both zero volatilities are replaced by their fallbacks (0.8
and 0.7), the long window by 0.6, and the blend of the three fallbacks
is returned. -/
theorem hv_zero_window_fallback_witness :
    calculate_weighted_historical_volatility (some (List.replicate 15 (100 : ℝ))) =
      some ((0.8 : ℝ) * HV_WEIGHTS.getD 0 0 + (0.7 : ℝ) * HV_WEIGHTS.getD 1 0
        + (0.6 : ℝ) * HV_WEIGHTS.getD 2 0) := by
  obtain ⟨h1, h2, _⟩ := hv_zero_window_fallback (List.replicate 15 (100 : ℝ))
  have hS : calculate_historical_volatility (List.replicate 15 (100 : ℝ)) HV_WINDOW_SHORT
      = some 0 :=
    calculate_historical_volatility_const 15 HV_WINDOW_SHORT 100 (by norm_num)
      (by norm_num [HV_WINDOW_SHORT]) (by norm_num [HV_WINDOW_SHORT])
  have hM : calculate_historical_volatility (List.replicate 15 (100 : ℝ)) HV_WINDOW_MEDIUM
      = some 0 :=
    calculate_historical_volatility_const 15 HV_WINDOW_MEDIUM 100 (by norm_num)
      (by norm_num [HV_WINDOW_MEDIUM]) (by norm_num [HV_WINDOW_MEDIUM])
  have hL : calculate_historical_volatility (List.replicate 15 (100 : ℝ)) HV_WINDOW_LONG
      = none :=
    calculate_historical_volatility_short_input _ _ (by simp [HV_WINDOW_LONG])
  have hNone : pyOrFloat (none : Option ℝ) (0.6 : ℝ) = 0.6 := rfl
  rw [h1 (Or.inr (Or.inr hL)), hS, hM, hL, h2, h2, hNone]

end CryptoOptions
